import Mathlib

/-!
# Verification of the SpaceShooter simulation core

Shallow embedding of the game-simulation component in
`src/Workshop/SpaceShooter.tsx`: the world state, the entity factories,
the axis-aligned collision test `checkCollision`, the per-tick step
`updateGame`, and the reset `resetGame`.

Numbers: the source works on JavaScript numbers used exclusively through
exact arithmetic (`+`, `-`, `*`, `/`, comparisons, `min`/`max`); positions
and sizes are embedded as rationals (`ℚ`) and timestamps (`Date.now()`
milliseconds) as integers (`ℤ`).  The only operation with no exact rational
counterpart is the touch-channel normalisation `(dx, dy) / sqrt(dx²+dy²)`;
its result is supplied by the per-tick environment oracle (`touchDir`),
and its guard `sqrt(dx²+dy²) > 5` is expressed by the equivalent
square-free inequality `dx²+dy² > 25`.  All other sources of
nondeterminism of a tick (held keys, touch target, `Date.now()`, the
`Math.random()` draws for spawning and enemy fire) are likewise fields of
the per-tick environment record `Env`.
-/

/-- The common entity shape of `SpaceShooter.tsx` (`interface GameObject`). -/
structure GameObject where
  x : ℚ
  y : ℚ
  width : ℚ
  height : ℚ
  speed : ℚ
  active : Bool
deriving DecidableEq, Repr

/-- `interface Enemy extends GameObject { type: number }`. -/
structure Enemy extends GameObject where
  type : ℕ
deriving DecidableEq, Repr

/-- `interface Bullet extends GameObject {}` — a player bullet. -/
abbrev Bullet := GameObject

/-- `interface EnemyBullet extends GameObject {}`. -/
abbrev EnemyBullet := GameObject

/-- `interface Player extends GameObject {}`. -/
abbrev Player := GameObject

/-- `interface Explosion` — purely visual, aged by one frame per tick. -/
structure Explosion where
  x : ℚ
  y : ℚ
  frame : ℕ
  active : Bool
deriving DecidableEq, Repr

/-- The World State held in the `gameState` React state, together with the
`score` state that the same component owns (the spec's World State lists
`score` as one of its fields). -/
structure GameState where
  player : Player
  bullets : List Bullet
  enemyBullets : List EnemyBullet
  enemies : List Enemy
  explosions : List Explosion
  lastEnemySpawn : ℤ
  lastBulletFire : ℤ
  gameOver : Bool
  score : ℕ
deriving DecidableEq, Repr

/-- The configuration injected through the component props: colors, star
size, the global speed multiplier `gameSpeed`, and the two entity sizes. -/
structure Config where
  backgroundColor : String
  playerColor : String
  bulletColor : String
  enemyColor : String
  enemyBulletColor : String
  explosionColor : String
  scoreColor : String
  starColor : String
  starSize : ℚ
  gameSpeed : ℚ
  playerSize : ℚ
  enemySize : ℚ
deriving DecidableEq, Repr

/-- Component state: the immutable session configuration plus the world. -/
structure AppState where
  config : Config
  game : GameState
deriving DecidableEq, Repr

/-- The inputs one invocation of `updateGame` reads from outside the world
state: `Date.now()`, the held-keys set `keysRef`, the touch target
`touchRef`, and the outcomes of the tick's `Math.random()` draws.
`touchDir` stands for the normalised direction `(dx, dy)/sqrt(dx²+dy²)`
computed in the touch branch; `shootRand i` tells whether the `i`-th
enemy's `Math.random() < 0.005 * gameSpeed` draw succeeded. -/
structure Env where
  now : ℤ
  keyLeft : Bool
  keyRight : Bool
  keyUp : Bool
  keyDown : Bool
  touch : Option (ℚ × ℚ)
  touchDir : ℚ × ℚ
  spawnRand : ℚ
  speedRand : ℚ
  typeRand : ℕ
  shootRand : ℕ → Bool

/-- The playfield width `CANVAS_WIDTH`. -/
def CANVAS_WIDTH : ℚ := 800

/-- The playfield height `CANVAS_HEIGHT`. -/
def CANVAS_HEIGHT : ℚ := 600

/-- `checkCollision` of `SpaceShooter.tsx` (lines 228–238): axis-aligned
bounding-box overlap, half-open on each axis.  A pure function of the two
rectangles. -/
def checkCollision (obj1 obj2 : GameObject) : Bool :=
  decide (obj1.x < obj2.x + obj2.width) &&
  decide (obj1.x + obj1.width > obj2.x) &&
  decide (obj1.y < obj2.y + obj2.height) &&
  decide (obj1.y + obj1.height > obj2.y)

/-- `spawnEnemy` (lines 240–251), with the two `Math.random()` draws and
the `Math.floor(Math.random()*2)` kind draw taken from the environment. -/
def spawnEnemy (enemySize : ℚ) (env : Env) : Enemy :=
  { x := env.spawnRand * (CANVAS_WIDTH - enemySize)
    y := -enemySize
    width := enemySize
    height := enemySize
    speed := 2 + env.speedRand * 3
    active := true
    type := env.typeRand }

/-- `fireBullet` (lines 253–263): a player bullet centered horizontally on
the player, spawned at the player's top edge. -/
def fireBullet (player : Player) : Bullet :=
  { x := player.x + player.width / 2 - 2
    y := player.y
    width := 4
    height := 12
    speed := 8
    active := true }

/-- `fireEnemyBullet` (lines 265–275): an enemy bullet centered on the
enemy, spawned at the enemy's bottom edge. -/
def fireEnemyBullet (enemy : Enemy) : EnemyBullet :=
  { x := enemy.x + enemy.width / 2 - 2
    y := enemy.y + enemy.height
    width := 4
    height := 8
    speed := 4
    active := true }

/-- The `Math.max(0, Math.min(bound, ·))` clamp of both player coordinates
(lines 341–355); in the source it runs only inside the touch branch. -/
def clampPlayer (p : Player) : Player :=
  { p with
    x := max 0 (min (CANVAS_WIDTH - p.width) p.x)
    y := max 0 (min (CANVAS_HEIGHT - p.height) p.y) }

/-- The movement part of `updateGame` (lines 306–356): the four guarded
keyboard moves applied in source order to the successively updated
position, then, when a touch target is present, the dead-zoned move toward
it followed by the `Math.max(0, Math.min(bound, ·))` clamp of both
coordinates.  The clamp runs only inside the touch branch, exactly as in
the source. -/
def movePlayer (gameSpeed : ℚ) (env : Env) (p : Player) : Player :=
  let p := if env.keyLeft && decide (p.x > 0) then
      { p with x := p.x - p.speed * gameSpeed } else p
  let p := if env.keyRight && decide (p.x < CANVAS_WIDTH - p.width) then
      { p with x := p.x + p.speed * gameSpeed } else p
  let p := if env.keyUp && decide (p.y > 0) then
      { p with y := p.y - p.speed * gameSpeed } else p
  let p := if env.keyDown && decide (p.y < CANVAS_HEIGHT - p.height) then
      { p with y := p.y + p.speed * gameSpeed } else p
  match env.touch with
  | none => p
  | some t =>
    let targetX := t.1 - p.width / 2
    let targetY := t.2 - p.height / 2
    let dx := targetX - p.x
    let dy := targetY - p.y
    let p := if dx * dx + dy * dy > 25 then
        { p with
          x := p.x + env.touchDir.1 * p.speed * gameSpeed
          y := p.y + env.touchDir.2 * p.speed * gameSpeed }
      else p
    clampPlayer p

/-- Step 1 of the tick: update the player from the inputs. -/
def playerPhase (gameSpeed : ℚ) (env : Env) (s : GameState) : GameState :=
  { s with player := movePlayer gameSpeed env s.player }

/-- The auto-fire (lines 358–362): when `currentTime - lastBulletFire >
200`, push one new player bullet and reset the timer. -/
def firePhase (now : ℤ) (s : GameState) : GameState :=
  if now - s.lastBulletFire > 200 then
    { s with bullets := s.bullets ++ [fireBullet s.player]
             lastBulletFire := now }
  else s

/-- Bullet advance and filter (lines 364–368): each bullet moves up by
`speed * gameSpeed`; bullets kept iff still below `-height` line and
active. -/
def moveBullets (gameSpeed : ℚ) (bs : List Bullet) : List Bullet :=
  (bs.map (fun b => { b with y := b.y - b.speed * gameSpeed })).filter
    (fun b => decide (b.y > -b.height) && b.active)

/-- Enemy-bullet advance and filter (lines 370–374). -/
def moveEnemyBullets (gameSpeed : ℚ) (bs : List EnemyBullet) : List EnemyBullet :=
  (bs.map (fun b => { b with y := b.y + b.speed * gameSpeed })).filter
    (fun b => decide (b.y < CANVAS_HEIGHT + b.height) && b.active)

/-- Phases 3 and 4 of the tick. -/
def bulletMovePhase (gameSpeed : ℚ) (s : GameState) : GameState :=
  { s with bullets := moveBullets gameSpeed s.bullets }

def enemyBulletMovePhase (gameSpeed : ℚ) (s : GameState) : GameState :=
  { s with enemyBullets := moveEnemyBullets gameSpeed s.enemyBullets }

/-- Enemy spawn (lines 376–380): when `currentTime - lastEnemySpawn >
1000`, push one enemy and reset the timer. -/
def spawnPhase (enemySize : ℚ) (env : Env) (s : GameState) : GameState :=
  if env.now - s.lastEnemySpawn > 1000 then
    { s with enemies := s.enemies ++ [spawnEnemy enemySize env]
             lastEnemySpawn := env.now }
  else s

/-- Enemy advance, firing and filter (lines 382–392): each enemy moves
down; each (kept or not) may fire an enemy bullet from its updated
position; enemies kept iff above the bottom line and active.  Returns the
surviving enemies and the bullets fired this tick, in source order. -/
def moveEnemies (gameSpeed : ℚ) (shoot : ℕ → Bool) :
    ℕ → List Enemy → List Enemy × List EnemyBullet
  | _, [] => ([], [])
  | i, e :: rest =>
    let e' := { e with y := e.y + e.speed * gameSpeed }
    let fired := if shoot i then [fireEnemyBullet e'] else []
    let r := moveEnemies gameSpeed shoot (i + 1) rest
    (if decide (e'.y < CANVAS_HEIGHT + e'.height) && e'.active then
        e' :: r.1 else r.1,
     fired ++ r.2)

/-- Phase 6 of the tick: move the enemies, appending newly fired enemy
bullets after the already-moved enemy-bullet list (the source pushes them
into `newState.enemyBullets` after its reassignment at line 371). -/
def enemyMovePhase (gameSpeed : ℚ) (shoot : ℕ → Bool) (s : GameState) : GameState :=
  let r := moveEnemies gameSpeed shoot 0 s.enemies
  { s with enemies := r.1, enemyBullets := s.enemyBullets ++ r.2 }

/-- The inner loop of the bullet–enemy collision pass (lines 395–419) for
one bullet: scan the enemy list in order; on a hit (both active and
overlapping) deactivate both, emit an explosion at the enemy's center and
score `(type + 1) * 10`.  Returns the bullet after the scan, the updated
enemy list, the explosions emitted, and the score gained. -/
def scanEnemies (b : Bullet) :
    List Enemy → Bullet × List Enemy × List Explosion × ℕ
  | [] => (b, [], [], 0)
  | e :: rest =>
    if b.active && e.active && checkCollision b e.toGameObject then
      let ex : Explosion :=
        { x := e.x + e.width / 2, y := e.y + e.height / 2
          frame := 0, active := true }
      let r := scanEnemies { b with active := false } rest
      (r.1, { e with active := false } :: r.2.1, ex :: r.2.2.1,
       (e.type + 1) * 10 + r.2.2.2)
    else
      let r := scanEnemies b rest
      (r.1, e :: r.2.1, r.2.2.1, r.2.2.2)

/-- The outer loop of the bullet–enemy collision pass: every bullet in
order is scanned against the (successively updated) enemy list. -/
def bulletEnemyPass :
    List Bullet → List Enemy → List Bullet × List Enemy × List Explosion × ℕ
  | [], es => ([], es, [], 0)
  | b :: bs, es =>
    let r := scanEnemies b es
    let r' := bulletEnemyPass bs r.2.1
    (r.1 :: r'.1, r'.2.1, r.2.2.1 ++ r'.2.2.1, r.2.2.2 + r'.2.2.2)

/-- Phase 7 of the tick as a state transformer. -/
def bulletEnemyPhase (s : GameState) : GameState :=
  let r := bulletEnemyPass s.bullets s.enemies
  { s with bullets := r.1, enemies := r.2.1
           explosions := s.explosions ++ r.2.2.1
           score := s.score + r.2.2.2 }

/-- The explosion pushed at the player's center in the game-over collision
passes (lines 426–431 and 440–445). -/
def playerExplosion (p : Player) : Explosion :=
  { x := p.x + p.width / 2, y := p.y + p.height / 2, frame := 0, active := true }

/-- Enemy–player collision pass (lines 421–433): for every active enemy
overlapping the player, record a game-over hit and an explosion at the
player's center.  The enemy itself is not modified. -/
def enemyPlayerPass (p : Player) : List Enemy → Bool × List Explosion
  | [] => (false, [])
  | e :: rest =>
    let r := enemyPlayerPass p rest
    if e.active && checkCollision e.toGameObject p then
      (true, playerExplosion p :: r.2)
    else r

/-- Enemy-bullet–player collision pass (lines 435–447). -/
def bulletPlayerPass (p : Player) : List EnemyBullet → Bool × List Explosion
  | [] => (false, [])
  | b :: rest =>
    let r := bulletPlayerPass p rest
    if b.active && checkCollision b p then
      (true, playerExplosion p :: r.2)
    else r

/-- Phases 8 and 9 of the tick: both game-over passes, run on the
pre-pruning snapshot, touching only `gameOver` and `explosions`. -/
def playerHitPhase (s : GameState) : GameState :=
  let r1 := enemyPlayerPass s.player s.enemies
  let r2 := bulletPlayerPass s.player s.enemyBullets
  { s with gameOver := s.gameOver || r1.1 || r2.1
           explosions := s.explosions ++ r1.2 ++ r2.2 }

/-- Phase 10 (lines 449–456): drop all now-inactive bullets, enemy
bullets and enemies. -/
def prunePhase (s : GameState) : GameState :=
  { s with bullets := s.bullets.filter (fun b => b.active)
           enemyBullets := s.enemyBullets.filter (fun b => b.active)
           enemies := s.enemies.filter (fun e => e.active) }

/-- Explosion ageing (lines 458–462): `frame++` then keep iff `frame <
10`. -/
def ageExplosions (exs : List Explosion) : List Explosion :=
  (exs.map (fun ex => { ex with frame := ex.frame + 1 })).filter
    (fun ex => decide (ex.frame < 10))

/-- Phase 11 of the tick. -/
def explosionPhase (s : GameState) : GameState :=
  { s with explosions := ageExplosions s.explosions }

/-- The state entering the collision passes: phases 1–6 composed. -/
def preCollision (cfg : Config) (env : Env) (s : GameState) : GameState :=
  enemyMovePhase cfg.gameSpeed env.shootRand
    (spawnPhase cfg.enemySize env
      (enemyBulletMovePhase cfg.gameSpeed
        (bulletMovePhase cfg.gameSpeed
          (firePhase env.now
            (playerPhase cfg.gameSpeed env s)))))

/-- One invocation of `updateGame` (lines 298–466): the no-op guard on
`gameOver`, then the eleven phases in source order. -/
def updateGame (cfg : Config) (env : Env) (s : GameState) : GameState :=
  if s.gameOver then s
  else
    explosionPhase
      (prunePhase
        (playerHitPhase
          (bulletEnemyPhase (preCollision cfg env s))))

/-- A sequence of ticks. -/
def steps (cfg : Config) (envs : List Env) (s : GameState) : GameState :=
  envs.foldl (fun t e => updateGame cfg e t) s

/-- The fresh world built by the initial `useState` (lines 89–105) and by
`resetGame` (lines 277–296), for a given configured player size. -/
def initialGameState (playerSize : ℚ) : GameState :=
  { player :=
      { x := 400, y := 500, width := playerSize, height := playerSize
        speed := 5, active := true }
    bullets := []
    enemyBullets := []
    enemies := []
    explosions := []
    lastEnemySpawn := 0
    lastBulletFire := 0
    gameOver := false
    score := 0 }

/-- `resetGame` (lines 277–296): `setScore(0)` and a fresh world from the
current `playerSize`; the configuration props are untouched. -/
def resetGame (a : AppState) : AppState :=
  { a with game := initialGameState a.config.playerSize }

/-! ## Frame lemmas for the individual phases -/

@[simp] theorem playerPhase_player (g : ℚ) (env : Env) (s : GameState) :
    (playerPhase g env s).player = movePlayer g env s.player := rfl

@[simp] theorem playerPhase_bullets (g : ℚ) (env : Env) (s : GameState) :
    (playerPhase g env s).bullets = s.bullets := rfl

@[simp] theorem playerPhase_enemyBullets (g : ℚ) (env : Env) (s : GameState) :
    (playerPhase g env s).enemyBullets = s.enemyBullets := rfl

@[simp] theorem playerPhase_enemies (g : ℚ) (env : Env) (s : GameState) :
    (playerPhase g env s).enemies = s.enemies := rfl

@[simp] theorem playerPhase_explosions (g : ℚ) (env : Env) (s : GameState) :
    (playerPhase g env s).explosions = s.explosions := rfl

@[simp] theorem playerPhase_lastEnemySpawn (g : ℚ) (env : Env) (s : GameState) :
    (playerPhase g env s).lastEnemySpawn = s.lastEnemySpawn := rfl

@[simp] theorem playerPhase_lastBulletFire (g : ℚ) (env : Env) (s : GameState) :
    (playerPhase g env s).lastBulletFire = s.lastBulletFire := rfl

@[simp] theorem playerPhase_gameOver (g : ℚ) (env : Env) (s : GameState) :
    (playerPhase g env s).gameOver = s.gameOver := rfl

@[simp] theorem playerPhase_score (g : ℚ) (env : Env) (s : GameState) :
    (playerPhase g env s).score = s.score := rfl

@[simp] theorem firePhase_player (now : ℤ) (s : GameState) :
    (firePhase now s).player = s.player := by
  unfold firePhase; split <;> rfl

@[simp] theorem firePhase_enemyBullets (now : ℤ) (s : GameState) :
    (firePhase now s).enemyBullets = s.enemyBullets := by
  unfold firePhase; split <;> rfl

@[simp] theorem firePhase_enemies (now : ℤ) (s : GameState) :
    (firePhase now s).enemies = s.enemies := by
  unfold firePhase; split <;> rfl

@[simp] theorem firePhase_explosions (now : ℤ) (s : GameState) :
    (firePhase now s).explosions = s.explosions := by
  unfold firePhase; split <;> rfl

@[simp] theorem firePhase_lastEnemySpawn (now : ℤ) (s : GameState) :
    (firePhase now s).lastEnemySpawn = s.lastEnemySpawn := by
  unfold firePhase; split <;> rfl

@[simp] theorem firePhase_gameOver (now : ℤ) (s : GameState) :
    (firePhase now s).gameOver = s.gameOver := by
  unfold firePhase; split <;> rfl

@[simp] theorem firePhase_score (now : ℤ) (s : GameState) :
    (firePhase now s).score = s.score := by
  unfold firePhase; split <;> rfl

@[simp] theorem bulletMovePhase_player (g : ℚ) (s : GameState) :
    (bulletMovePhase g s).player = s.player := rfl

@[simp] theorem bulletMovePhase_enemyBullets (g : ℚ) (s : GameState) :
    (bulletMovePhase g s).enemyBullets = s.enemyBullets := rfl

@[simp] theorem bulletMovePhase_enemies (g : ℚ) (s : GameState) :
    (bulletMovePhase g s).enemies = s.enemies := rfl

@[simp] theorem bulletMovePhase_explosions (g : ℚ) (s : GameState) :
    (bulletMovePhase g s).explosions = s.explosions := rfl

@[simp] theorem bulletMovePhase_lastEnemySpawn (g : ℚ) (s : GameState) :
    (bulletMovePhase g s).lastEnemySpawn = s.lastEnemySpawn := rfl

@[simp] theorem bulletMovePhase_lastBulletFire (g : ℚ) (s : GameState) :
    (bulletMovePhase g s).lastBulletFire = s.lastBulletFire := rfl

@[simp] theorem bulletMovePhase_gameOver (g : ℚ) (s : GameState) :
    (bulletMovePhase g s).gameOver = s.gameOver := rfl

@[simp] theorem bulletMovePhase_score (g : ℚ) (s : GameState) :
    (bulletMovePhase g s).score = s.score := rfl

@[simp] theorem enemyBulletMovePhase_player (g : ℚ) (s : GameState) :
    (enemyBulletMovePhase g s).player = s.player := rfl

@[simp] theorem enemyBulletMovePhase_bullets (g : ℚ) (s : GameState) :
    (enemyBulletMovePhase g s).bullets = s.bullets := rfl

@[simp] theorem enemyBulletMovePhase_enemies (g : ℚ) (s : GameState) :
    (enemyBulletMovePhase g s).enemies = s.enemies := rfl

@[simp] theorem enemyBulletMovePhase_explosions (g : ℚ) (s : GameState) :
    (enemyBulletMovePhase g s).explosions = s.explosions := rfl

@[simp] theorem enemyBulletMovePhase_lastEnemySpawn (g : ℚ) (s : GameState) :
    (enemyBulletMovePhase g s).lastEnemySpawn = s.lastEnemySpawn := rfl

@[simp] theorem enemyBulletMovePhase_lastBulletFire (g : ℚ) (s : GameState) :
    (enemyBulletMovePhase g s).lastBulletFire = s.lastBulletFire := rfl

@[simp] theorem enemyBulletMovePhase_gameOver (g : ℚ) (s : GameState) :
    (enemyBulletMovePhase g s).gameOver = s.gameOver := rfl

@[simp] theorem enemyBulletMovePhase_score (g : ℚ) (s : GameState) :
    (enemyBulletMovePhase g s).score = s.score := rfl

@[simp] theorem spawnPhase_player (sz : ℚ) (env : Env) (s : GameState) :
    (spawnPhase sz env s).player = s.player := by
  unfold spawnPhase; split <;> rfl

@[simp] theorem spawnPhase_bullets (sz : ℚ) (env : Env) (s : GameState) :
    (spawnPhase sz env s).bullets = s.bullets := by
  unfold spawnPhase; split <;> rfl

@[simp] theorem spawnPhase_enemyBullets (sz : ℚ) (env : Env) (s : GameState) :
    (spawnPhase sz env s).enemyBullets = s.enemyBullets := by
  unfold spawnPhase; split <;> rfl

@[simp] theorem spawnPhase_explosions (sz : ℚ) (env : Env) (s : GameState) :
    (spawnPhase sz env s).explosions = s.explosions := by
  unfold spawnPhase; split <;> rfl

@[simp] theorem spawnPhase_lastBulletFire (sz : ℚ) (env : Env) (s : GameState) :
    (spawnPhase sz env s).lastBulletFire = s.lastBulletFire := by
  unfold spawnPhase; split <;> rfl

@[simp] theorem spawnPhase_gameOver (sz : ℚ) (env : Env) (s : GameState) :
    (spawnPhase sz env s).gameOver = s.gameOver := by
  unfold spawnPhase; split <;> rfl

@[simp] theorem spawnPhase_score (sz : ℚ) (env : Env) (s : GameState) :
    (spawnPhase sz env s).score = s.score := by
  unfold spawnPhase; split <;> rfl

@[simp] theorem enemyMovePhase_player (g : ℚ) (shoot : ℕ → Bool) (s : GameState) :
    (enemyMovePhase g shoot s).player = s.player := rfl

@[simp] theorem enemyMovePhase_bullets (g : ℚ) (shoot : ℕ → Bool) (s : GameState) :
    (enemyMovePhase g shoot s).bullets = s.bullets := rfl

@[simp] theorem enemyMovePhase_explosions (g : ℚ) (shoot : ℕ → Bool) (s : GameState) :
    (enemyMovePhase g shoot s).explosions = s.explosions := rfl

@[simp] theorem enemyMovePhase_lastEnemySpawn (g : ℚ) (shoot : ℕ → Bool) (s : GameState) :
    (enemyMovePhase g shoot s).lastEnemySpawn = s.lastEnemySpawn := rfl

@[simp] theorem enemyMovePhase_lastBulletFire (g : ℚ) (shoot : ℕ → Bool) (s : GameState) :
    (enemyMovePhase g shoot s).lastBulletFire = s.lastBulletFire := rfl

@[simp] theorem enemyMovePhase_gameOver (g : ℚ) (shoot : ℕ → Bool) (s : GameState) :
    (enemyMovePhase g shoot s).gameOver = s.gameOver := rfl

@[simp] theorem enemyMovePhase_score (g : ℚ) (shoot : ℕ → Bool) (s : GameState) :
    (enemyMovePhase g shoot s).score = s.score := rfl

@[simp] theorem bulletEnemyPhase_player (s : GameState) :
    (bulletEnemyPhase s).player = s.player := rfl

@[simp] theorem bulletEnemyPhase_enemyBullets (s : GameState) :
    (bulletEnemyPhase s).enemyBullets = s.enemyBullets := rfl

@[simp] theorem bulletEnemyPhase_lastEnemySpawn (s : GameState) :
    (bulletEnemyPhase s).lastEnemySpawn = s.lastEnemySpawn := rfl

@[simp] theorem bulletEnemyPhase_lastBulletFire (s : GameState) :
    (bulletEnemyPhase s).lastBulletFire = s.lastBulletFire := rfl

@[simp] theorem bulletEnemyPhase_gameOver (s : GameState) :
    (bulletEnemyPhase s).gameOver = s.gameOver := rfl

@[simp] theorem bulletEnemyPhase_score (s : GameState) :
    (bulletEnemyPhase s).score
      = s.score + (bulletEnemyPass s.bullets s.enemies).2.2.2 := rfl

@[simp] theorem playerHitPhase_player (s : GameState) :
    (playerHitPhase s).player = s.player := rfl

@[simp] theorem playerHitPhase_bullets (s : GameState) :
    (playerHitPhase s).bullets = s.bullets := rfl

@[simp] theorem playerHitPhase_enemyBullets (s : GameState) :
    (playerHitPhase s).enemyBullets = s.enemyBullets := rfl

@[simp] theorem playerHitPhase_enemies (s : GameState) :
    (playerHitPhase s).enemies = s.enemies := rfl

@[simp] theorem playerHitPhase_lastEnemySpawn (s : GameState) :
    (playerHitPhase s).lastEnemySpawn = s.lastEnemySpawn := rfl

@[simp] theorem playerHitPhase_lastBulletFire (s : GameState) :
    (playerHitPhase s).lastBulletFire = s.lastBulletFire := rfl

@[simp] theorem playerHitPhase_score (s : GameState) :
    (playerHitPhase s).score = s.score := rfl

@[simp] theorem playerHitPhase_gameOver (s : GameState) :
    (playerHitPhase s).gameOver
      = (s.gameOver || (enemyPlayerPass s.player s.enemies).1
          || (bulletPlayerPass s.player s.enemyBullets).1) := rfl

@[simp] theorem playerHitPhase_explosions (s : GameState) :
    (playerHitPhase s).explosions
      = s.explosions ++ (enemyPlayerPass s.player s.enemies).2
          ++ (bulletPlayerPass s.player s.enemyBullets).2 := rfl

@[simp] theorem prunePhase_player (s : GameState) :
    (prunePhase s).player = s.player := rfl

@[simp] theorem prunePhase_explosions (s : GameState) :
    (prunePhase s).explosions = s.explosions := rfl

@[simp] theorem prunePhase_lastEnemySpawn (s : GameState) :
    (prunePhase s).lastEnemySpawn = s.lastEnemySpawn := rfl

@[simp] theorem prunePhase_lastBulletFire (s : GameState) :
    (prunePhase s).lastBulletFire = s.lastBulletFire := rfl

@[simp] theorem prunePhase_gameOver (s : GameState) :
    (prunePhase s).gameOver = s.gameOver := rfl

@[simp] theorem prunePhase_score (s : GameState) :
    (prunePhase s).score = s.score := rfl

@[simp] theorem prunePhase_enemies (s : GameState) :
    (prunePhase s).enemies = s.enemies.filter (fun e => e.active) := rfl

@[simp] theorem explosionPhase_player (s : GameState) :
    (explosionPhase s).player = s.player := rfl

@[simp] theorem explosionPhase_bullets (s : GameState) :
    (explosionPhase s).bullets = s.bullets := rfl

@[simp] theorem explosionPhase_enemyBullets (s : GameState) :
    (explosionPhase s).enemyBullets = s.enemyBullets := rfl

@[simp] theorem explosionPhase_enemies (s : GameState) :
    (explosionPhase s).enemies = s.enemies := rfl

@[simp] theorem explosionPhase_lastEnemySpawn (s : GameState) :
    (explosionPhase s).lastEnemySpawn = s.lastEnemySpawn := rfl

@[simp] theorem explosionPhase_lastBulletFire (s : GameState) :
    (explosionPhase s).lastBulletFire = s.lastBulletFire := rfl

@[simp] theorem explosionPhase_gameOver (s : GameState) :
    (explosionPhase s).gameOver = s.gameOver := rfl

@[simp] theorem explosionPhase_score (s : GameState) :
    (explosionPhase s).score = s.score := rfl

/-! ## Concrete fixtures used by witnesses and counterexamples -/

/-- The default configuration of the component props. -/
def cfg0 : Config :=
  { backgroundColor := "#000011", playerColor := "#00FF00"
    bulletColor := "#FFFF00", enemyColor := "#FF0000"
    enemyBulletColor := "#FF6600", explosionColor := "#FFA500"
    scoreColor := "#FFFFFF", starColor := "#FFFFFF", starSize := 2
    gameSpeed := 1, playerSize := 32, enemySize := 32 }

/-- A quiet tick environment: no keys, no touch, all random draws zero. -/
def env0 : Env :=
  { now := 0, keyLeft := false, keyRight := false, keyUp := false
    keyDown := false, touch := none, touchDir := (0, 0), spawnRand := 0
    speedRand := 0, typeRand := 0, shootRand := fun _ => false }

/-! ## C1 — the step is a no-op on a terminal state -/

/-- C1: when `gameOver` is already true, one invocation of `updateGame`
returns the state with every field unchanged: `player`, `bullets`,
`enemyBullets`, `enemies`, `explosions`, `lastEnemySpawn`,
`lastBulletFire`, `score` and `gameOver` all keep their pre-call value. -/
theorem C1_gameOver_step_noop (cfg : Config) (env : Env) (s : GameState)
    (h : s.gameOver = true) :
    (updateGame cfg env s).player = s.player ∧
    (updateGame cfg env s).bullets = s.bullets ∧
    (updateGame cfg env s).enemyBullets = s.enemyBullets ∧
    (updateGame cfg env s).enemies = s.enemies ∧
    (updateGame cfg env s).explosions = s.explosions ∧
    (updateGame cfg env s).lastEnemySpawn = s.lastEnemySpawn ∧
    (updateGame cfg env s).lastBulletFire = s.lastBulletFire ∧
    (updateGame cfg env s).score = s.score ∧
    (updateGame cfg env s).gameOver = s.gameOver := by
  simp [updateGame, h]

/-- A terminal state with some debris left over, for the C1 witness. -/
def sOver : GameState :=
  { initialGameState 32 with
      gameOver := true
      score := 40
      explosions := [{ x := 100, y := 100, frame := 3, active := true }]
      enemies := [{ x := 10, y := 20, width := 32, height := 32, speed := 2
                    active := true, type := 1 }] }

/-- Witness for C1 at a concrete terminal state. -/
theorem C1_gameOver_step_noop_witness :
    (updateGame cfg0 env0 sOver).player = sOver.player ∧
    (updateGame cfg0 env0 sOver).bullets = sOver.bullets ∧
    (updateGame cfg0 env0 sOver).enemyBullets = sOver.enemyBullets ∧
    (updateGame cfg0 env0 sOver).enemies = sOver.enemies ∧
    (updateGame cfg0 env0 sOver).explosions = sOver.explosions ∧
    (updateGame cfg0 env0 sOver).lastEnemySpawn = sOver.lastEnemySpawn ∧
    (updateGame cfg0 env0 sOver).lastBulletFire = sOver.lastBulletFire ∧
    (updateGame cfg0 env0 sOver).score = sOver.score ∧
    (updateGame cfg0 env0 sOver).gameOver = sOver.gameOver :=
  C1_gameOver_step_noop cfg0 env0 sOver rfl

/-! ## C7 — the collision test -/

/-- C7: `checkCollision a b` returns true iff
`a.x < b.x + b.width ∧ a.x + a.width > b.x ∧ a.y < b.y + b.height ∧
a.y + a.height > b.y`.  It is a pure function of its two arguments (the
embedding is functional; the source reads but never writes the fields of
either argument). -/
theorem C7_checkCollision_iff (a b : GameObject) :
    checkCollision a b = true ↔
      (a.x < b.x + b.width ∧ a.x + a.width > b.x ∧
       a.y < b.y + b.height ∧ a.y + a.height > b.y) := by
  simp [checkCollision, and_assoc]

/-! ## C8 — reset -/

/-- C8: for every component state (in particular a terminal one),
`resetGame` produces a world with score 0, `gameOver` false, empty bullet,
enemy-bullet, enemy and explosion lists, and an alive player, and leaves
the whole configuration record (colors, sizes, speed multiplier)
unchanged. -/
theorem C8_resetGame_fresh (a : AppState) :
    (resetGame a).config = a.config ∧
    (resetGame a).game.score = 0 ∧
    (resetGame a).game.gameOver = false ∧
    (resetGame a).game.bullets = [] ∧
    (resetGame a).game.enemyBullets = [] ∧
    (resetGame a).game.enemies = [] ∧
    (resetGame a).game.explosions = [] ∧
    (resetGame a).game.player.active = true := by
  refine ⟨rfl, rfl, rfl, rfl, rfl, rfl, rfl, rfl⟩

/-! ## C2 — player bounds -/

/-- `movePlayer` never changes the player's width. -/
theorem movePlayer_width (g : ℚ) (env : Env) (p : Player) :
    (movePlayer g env p).width = p.width := by
  unfold movePlayer clampPlayer
  cases henv : env.touch <;> dsimp only <;> split_ifs <;> rfl

/-- `movePlayer` never changes the player's height. -/
theorem movePlayer_height (g : ℚ) (env : Env) (p : Player) :
    (movePlayer g env p).height = p.height := by
  unfold movePlayer clampPlayer
  cases henv : env.touch <;> dsimp only <;> split_ifs <;> rfl

/-- `movePlayer` never changes the player's active flag. -/
theorem movePlayer_active (g : ℚ) (env : Env) (p : Player) :
    (movePlayer g env p).active = p.active := by
  unfold movePlayer clampPlayer
  cases henv : env.touch <;> dsimp only <;> split_ifs <;> rfl

/-- When a touch target is present, `movePlayer` ends with the clamp
applied to some intermediate player of the same size. -/
theorem movePlayer_touch_clamp (g : ℚ) (env : Env) (p : Player)
    (t : ℚ × ℚ) (ht : env.touch = some t) :
    ∃ q : Player, movePlayer g env p = clampPlayer q ∧
      q.width = p.width ∧ q.height = p.height := by
  unfold movePlayer
  rw [ht]
  dsimp only
  split_ifs <;> exact ⟨_, rfl, rfl, rfl⟩

/-- The clamp really lands in the playfield box, as soon as the box is
nonempty. -/
theorem clampPlayer_bounds (p : Player)
    (hw : p.width ≤ CANVAS_WIDTH) (hh : p.height ≤ CANVAS_HEIGHT) :
    0 ≤ (clampPlayer p).x ∧
    (clampPlayer p).x ≤ CANVAS_WIDTH - (clampPlayer p).width ∧
    0 ≤ (clampPlayer p).y ∧
    (clampPlayer p).y ≤ CANVAS_HEIGHT - (clampPlayer p).height := by
  unfold clampPlayer
  dsimp only
  exact ⟨le_max_left _ _,
    max_le (by linarith) (min_le_left _ _),
    le_max_left _ _,
    max_le (by linarith) (min_le_left _ _)⟩

/-- On a non-terminal tick the player after the step is exactly the moved
player: no later phase of `updateGame` touches it. -/
theorem updateGame_player (cfg : Config) (env : Env) (s : GameState)
    (h : s.gameOver = false) :
    (updateGame cfg env s).player = movePlayer cfg.gameSpeed env s.player := by
  simp [updateGame, h, preCollision]

/-- Counterexample to C2 as stated: with no touch target, a held
`ArrowLeft`, and the player one unit from the left wall, the tick (at the
default configuration) drives the player to `x = −4`, outside the
playfield.  The keyboard channel only guards `x > 0` before subtracting a
full `speed × gameSpeed` step and the clamp runs only in the touch
branch. -/
def sLeftWall : GameState :=
  { initialGameState 32 with
      player := { x := 1, y := 100, width := 32, height := 32, speed := 5
                  active := true } }

def envLeftKey : Env := { env0 with keyLeft := true }

theorem C2_keyboard_escapes_cex :
    sLeftWall.gameOver = false ∧
    envLeftKey.touch = none ∧
    0 ≤ sLeftWall.player.x ∧
    (updateGame cfg0 envLeftKey sLeftWall).player.x = -4 ∧
    ¬ (0 ≤ (updateGame cfg0 envLeftKey sLeftWall).player.x) := by
  norm_num [updateGame, preCollision, explosionPhase, prunePhase,
    playerHitPhase, bulletEnemyPhase, enemyMovePhase, spawnPhase,
    enemyBulletMovePhase, bulletMovePhase, firePhase, playerPhase,
    movePlayer, clampPlayer, moveBullets, moveEnemyBullets, moveEnemies,
    scanEnemies, bulletEnemyPass, enemyPlayerPass, bulletPlayerPass,
    ageExplosions, sLeftWall, initialGameState, cfg0, envLeftKey, env0,
    checkCollision, fireBullet, spawnEnemy, fireEnemyBullet,
    playerExplosion, CANVAS_WIDTH, CANVAS_HEIGHT]

/-- C2 amended: the bounds `0 ≤ x ≤ playfieldWidth − playerWidth` and
`0 ≤ y ≤ playfieldHeight − playerHeight` hold at the end of every
non-terminal tick in which a touch target is present (and the player fits
in the 800×600 playfield); without a touch target the clamp does not run
and held keys can push the player outside the playfield (see the
counterexample). -/
theorem C2_touch_tick_in_bounds (cfg : Config) (env : Env) (s : GameState)
    (t : ℚ × ℚ) (h : s.gameOver = false) (ht : env.touch = some t)
    (hw : s.player.width ≤ CANVAS_WIDTH)
    (hh : s.player.height ≤ CANVAS_HEIGHT) :
    0 ≤ (updateGame cfg env s).player.x ∧
    (updateGame cfg env s).player.x
      ≤ CANVAS_WIDTH - (updateGame cfg env s).player.width ∧
    0 ≤ (updateGame cfg env s).player.y ∧
    (updateGame cfg env s).player.y
      ≤ CANVAS_HEIGHT - (updateGame cfg env s).player.height := by
  obtain ⟨q, hq, hqw, hqh⟩ :=
    movePlayer_touch_clamp cfg.gameSpeed env s.player t ht
  rw [updateGame_player cfg env s h, hq]
  exact clampPlayer_bounds q (by rw [hqw]; exact hw) (by rw [hqh]; exact hh)

def envTouch : Env := { env0 with touch := some (100, 100), touchDir := (1, 0) }

/-- Witness for the amended C2 at a concrete touch-driven tick. -/
theorem C2_touch_tick_in_bounds_witness :
    0 ≤ (updateGame cfg0 envTouch (initialGameState 32)).player.x ∧
    (updateGame cfg0 envTouch (initialGameState 32)).player.x
      ≤ CANVAS_WIDTH - (updateGame cfg0 envTouch (initialGameState 32)).player.width ∧
    0 ≤ (updateGame cfg0 envTouch (initialGameState 32)).player.y ∧
    (updateGame cfg0 envTouch (initialGameState 32)).player.y
      ≤ CANVAS_HEIGHT - (updateGame cfg0 envTouch (initialGameState 32)).player.height :=
  C2_touch_tick_in_bounds cfg0 envTouch (initialGameState 32) (100, 100)
    rfl rfl (by norm_num [initialGameState, CANVAS_WIDTH])
    (by norm_num [initialGameState, CANVAS_HEIGHT])

/-! ## C6 — auto-fire -/

/-- On a non-terminal tick the fire timestamp after the whole step is the
one chosen by the auto-fire sub-step: no later phase touches it. -/
theorem updateGame_lastBulletFire (cfg : Config) (env : Env) (s : GameState)
    (h : s.gameOver = false) :
    (updateGame cfg env s).lastBulletFire
      = (firePhase env.now (playerPhase cfg.gameSpeed env s)).lastBulletFire := by
  simp [updateGame, h, preCollision]

/-- Counterexample to C6 as stated: at elapsed time exactly 200 ms the
source does not fire — the guard at line 359 is the strict
`currentTime - lastBulletFire > 200`, not `≥ 200`.  With
`lastBulletFire = 0` and `Date.now() = 200` the tick appends no bullet
(the world stays bullet-free) and leaves the fire timestamp at 0. -/
def env200 : Env := { env0 with now := 200 }

theorem C6_at_exactly_200_cex :
    (initialGameState 32).gameOver = false ∧
    env200.now - (initialGameState 32).lastBulletFire = 200 ∧
    (updateGame cfg0 env200 (initialGameState 32)).bullets = [] ∧
    (updateGame cfg0 env200 (initialGameState 32)).lastBulletFire = 0 := by
  norm_num [updateGame, preCollision, explosionPhase, prunePhase,
    playerHitPhase, bulletEnemyPhase, enemyMovePhase, spawnPhase,
    enemyBulletMovePhase, bulletMovePhase, firePhase, playerPhase,
    movePlayer, clampPlayer, moveBullets, moveEnemyBullets, moveEnemies,
    scanEnemies, bulletEnemyPass, enemyPlayerPass, bulletPlayerPass,
    ageExplosions, initialGameState, cfg0, env200, env0, checkCollision,
    fireBullet, spawnEnemy, fireEnemyBullet, playerExplosion,
    CANVAS_WIDTH, CANVAS_HEIGHT]

/-- C6 amended: on every non-terminal tick, if the elapsed time since the
last shot is **strictly more than** 200 ms, the auto-fire sub-step appends
exactly one new player bullet (fired from the already-moved player) and
the whole step resets the fire timestamp to the current time; this does
not depend on any input.  If the elapsed time is at most 200 ms, no bullet
is appended and the timestamp is unchanged. -/
theorem C6_autofire_strict (cfg : Config) (env : Env) (s : GameState)
    (h : s.gameOver = false) :
    (env.now - s.lastBulletFire > 200 →
      (firePhase env.now (playerPhase cfg.gameSpeed env s)).bullets
        = s.bullets ++ [fireBullet (movePlayer cfg.gameSpeed env s.player)] ∧
      (updateGame cfg env s).lastBulletFire = env.now) ∧
    (env.now - s.lastBulletFire ≤ 200 →
      (firePhase env.now (playerPhase cfg.gameSpeed env s)).bullets
        = s.bullets ∧
      (updateGame cfg env s).lastBulletFire = s.lastBulletFire) := by
  have hp : (playerPhase cfg.gameSpeed env s).lastBulletFire
      = s.lastBulletFire := rfl
  constructor
  · intro hgt
    constructor
    · unfold firePhase
      rw [hp, if_pos hgt]
      rfl
    · rw [updateGame_lastBulletFire cfg env s h]
      unfold firePhase
      rw [hp, if_pos hgt]
  · intro hle
    have hnot : ¬ (env.now - (playerPhase cfg.gameSpeed env s).lastBulletFire > 200) := by
      rw [hp]; omega
    constructor
    · unfold firePhase
      rw [if_neg hnot]
      rfl
    · rw [updateGame_lastBulletFire cfg env s h]
      unfold firePhase
      rw [if_neg hnot, hp]

/-- Witness for the amended C6: a tick at elapsed time 201 ms fires. -/
def env201 : Env := { env0 with now := 201 }

theorem C6_autofire_strict_witness :
    (firePhase env201.now (playerPhase cfg0.gameSpeed env201 (initialGameState 32))).bullets
      = (initialGameState 32).bullets
        ++ [fireBullet (movePlayer cfg0.gameSpeed env201 (initialGameState 32).player)] ∧
    (updateGame cfg0 env201 (initialGameState 32)).lastBulletFire = env201.now :=
  (C6_autofire_strict cfg0 env201 (initialGameState 32) rfl).1
    (by norm_num [env201, env0, initialGameState])

/-! ## The bullet–enemy pass: scoring lemmas -/

/-- Total score value `(type + 1) * 10` of the dead enemies of a list. -/
def deadScore (es : List Enemy) : ℕ :=
  ((es.filter (fun e => !e.active)).map (fun e => (e.type + 1) * 10)).sum

theorem deadScore_cons (e : Enemy) (es : List Enemy) :
    deadScore (e :: es)
      = (if e.active then 0 else (e.type + 1) * 10) + deadScore es := by
  by_cases h : e.active <;> simp [deadScore, List.filter_cons, h]

theorem deadScore_all_active (es : List Enemy)
    (h : ∀ e ∈ es, e.active = true) : deadScore es = 0 := by
  induction es with
  | nil => rfl
  | cons e rest ih =>
    rw [deadScore_cons, if_pos (h e (List.mem_cons_self e rest)),
      ih (fun x hx => h x (List.mem_cons_of_mem e hx))]

/-- An inactive bullet scans the enemy list without any effect. -/
theorem scanEnemies_inactive (b : Bullet) (es : List Enemy)
    (hb : b.active = false) : scanEnemies b es = (b, es, [], 0) := by
  induction es with
  | nil => rfl
  | cons e rest ih => simp [scanEnemies, hb, ih]

/-- The score gained by one bullet's scan equals the score value of the
enemies it newly kills. -/
theorem scanEnemies_deadScore (b : Bullet) (es : List Enemy) :
    deadScore (scanEnemies b es).2.1
      = deadScore es + (scanEnemies b es).2.2.2 := by
  induction es generalizing b with
  | nil => simp [scanEnemies, deadScore]
  | cons e rest ih =>
    by_cases h : (b.active && e.active && checkCollision b e.toGameObject) = true
    · have he : e.active = true := by
        have h' := h
        simp only [Bool.and_eq_true] at h'
        exact h'.1.2
      simp only [scanEnemies, h]
      simp only [Bool.true_eq_false, Bool.false_eq_true, if_true, if_false,
        ite_true, ite_false, ite_self, eq_self_iff_true]
      simp only [deadScore_cons, he, if_true, ite_true]
      rw [ih]
      simp
      omega
    · simp only [scanEnemies, h]
      simp only [Bool.false_eq_true, if_false, ite_false]
      simp only [deadScore_cons]
      rw [ih]
      omega

/-- An enemy that is still active after a scan was in the list before it,
unchanged. -/
theorem scanEnemies_mem_active (b : Bullet) (es : List Enemy) (e : Enemy)
    (hmem : e ∈ (scanEnemies b es).2.1) (ha : e.active = true) : e ∈ es := by
  induction es generalizing b with
  | nil => simp [scanEnemies] at hmem
  | cons e0 rest ih =>
    by_cases h : (b.active && e0.active && checkCollision b e0.toGameObject) = true
    · simp only [scanEnemies, h, if_true] at hmem
      rcases List.mem_cons.mp hmem with heq | htail
      · exfalso
        rw [heq] at ha
        simp at ha
      · exact List.mem_cons_of_mem e0 (ih _ htail)
    · simp only [scanEnemies, h, if_false] at hmem
      rcases List.mem_cons.mp hmem with heq | htail
      · exact heq ▸ List.mem_cons_self e0 rest
      · exact List.mem_cons_of_mem e0 (ih _ htail)

/-- A scan that gains score witnesses an active bullet and an active,
overlapping enemy of the scanned list. -/
theorem scanEnemies_gain_collision (b : Bullet) (es : List Enemy)
    (hg : (scanEnemies b es).2.2.2 ≠ 0) :
    b.active = true ∧
      ∃ e ∈ es, e.active = true ∧ checkCollision b e.toGameObject = true := by
  induction es generalizing b with
  | nil => simp [scanEnemies] at hg
  | cons e0 rest ih =>
    by_cases h : (b.active && e0.active && checkCollision b e0.toGameObject) = true
    · have h' := h
      simp only [Bool.and_eq_true] at h'
      exact ⟨h'.1.1, e0, List.mem_cons_self e0 rest, h'.1.2, h'.2⟩
    · simp only [scanEnemies, h, if_false] at hg
      obtain ⟨hb, e, hmem, he, hcoll⟩ := ih b hg
      exact ⟨hb, e, List.mem_cons_of_mem e0 hmem, he, hcoll⟩

/-- The whole pass's gain equals the score value of the enemies newly
killed during it. -/
theorem bulletEnemyPass_deadScore (bs : List Bullet) (es : List Enemy) :
    deadScore (bulletEnemyPass bs es).2.1
      = deadScore es + (bulletEnemyPass bs es).2.2.2 := by
  induction bs generalizing es with
  | nil => simp [bulletEnemyPass]
  | cons b bs ih =>
    simp only [bulletEnemyPass]
    rw [ih, scanEnemies_deadScore]
    omega

/-- A pass that gains score witnesses an active bullet and an active,
overlapping enemy of the lists it was given. -/
theorem bulletEnemyPass_gain_collision (bs : List Bullet) (es : List Enemy)
    (hg : (bulletEnemyPass bs es).2.2.2 ≠ 0) :
    ∃ b ∈ bs, b.active = true ∧
      ∃ e ∈ es, e.active = true ∧ checkCollision b e.toGameObject = true := by
  induction bs generalizing es with
  | nil => simp [bulletEnemyPass] at hg
  | cons b bs ih =>
    simp only [bulletEnemyPass] at hg
    by_cases h1 : (scanEnemies b es).2.2.2 = 0
    · have h2 : (bulletEnemyPass bs (scanEnemies b es).2.1).2.2.2 ≠ 0 := by
        omega
      obtain ⟨b', hb'mem, hb', e, hemem, he, hcoll⟩ := ih _ h2
      exact ⟨b', List.mem_cons_of_mem b hb'mem, hb',
        e, scanEnemies_mem_active b es e hemem he, he, hcoll⟩
    · obtain ⟨hb, e, hemem, he, hcoll⟩ := scanEnemies_gain_collision b es h1
      exact ⟨b, List.mem_cons_self b bs, hb, e, hemem, he, hcoll⟩

/-! ## Activity of the lists entering the collision passes -/

/-- Every enemy surviving the move/filter pass is active. -/
theorem moveEnemies_active (g : ℚ) (shoot : ℕ → Bool) (i : ℕ)
    (es : List Enemy) :
    ∀ e ∈ (moveEnemies g shoot i es).1, e.active = true := by
  induction es generalizing i with
  | nil => intro e he; simp [moveEnemies] at he
  | cons e0 rest ih =>
    intro e he
    simp only [moveEnemies] at he
    split at he
    · rcases List.mem_cons.mp he with heq | ht
      · rename_i hc
        have hc' := hc
        simp only [Bool.and_eq_true] at hc'
        rw [heq]
        exact hc'.2
      · exact ih _ e ht
    · exact ih _ e he

/-- Every bullet surviving the move/filter pass is active. -/
theorem moveBullets_active (g : ℚ) (bs : List Bullet) :
    ∀ b ∈ moveBullets g bs, b.active = true := by
  intro b hb
  unfold moveBullets at hb
  have h2 := (List.mem_filter.mp hb).2
  simp only [Bool.and_eq_true] at h2
  exact h2.2

@[simp] theorem preCollision_score (cfg : Config) (env : Env) (s : GameState) :
    (preCollision cfg env s).score = s.score := by
  simp [preCollision]

@[simp] theorem preCollision_gameOver (cfg : Config) (env : Env) (s : GameState) :
    (preCollision cfg env s).gameOver = s.gameOver := by
  simp [preCollision]

/-- The enemy list entering the collision passes is all-active. -/
theorem preCollision_enemies_active (cfg : Config) (env : Env) (s : GameState) :
    ∀ e ∈ (preCollision cfg env s).enemies, e.active = true := by
  intro e he
  exact moveEnemies_active cfg.gameSpeed env.shootRand 0
    (spawnPhase cfg.enemySize env
      (enemyBulletMovePhase cfg.gameSpeed
        (bulletMovePhase cfg.gameSpeed
          (firePhase env.now (playerPhase cfg.gameSpeed env s))))).enemies e he

/-- A terminal state is returned unchanged (the guard at line 300). -/
theorem updateGame_frozen (cfg : Config) (env : Env) (s : GameState)
    (h : s.gameOver = true) : updateGame cfg env s = s := by
  simp [updateGame, h]

/-- On a non-terminal tick the step's score is the incoming score plus the
bullet–enemy pass's gain; no other phase touches the score. -/
theorem updateGame_score (cfg : Config) (env : Env) (s : GameState)
    (h : s.gameOver = false) :
    (updateGame cfg env s).score
      = s.score + (bulletEnemyPass (preCollision cfg env s).bullets
          (preCollision cfg env s).enemies).2.2.2 := by
  simp [updateGame, h]

/-- One tick never decreases the score. -/
theorem updateGame_score_mono (cfg : Config) (env : Env) (s : GameState) :
    s.score ≤ (updateGame cfg env s).score := by
  by_cases h : s.gameOver = true
  · rw [updateGame_frozen cfg env s h]
  · rw [updateGame_score cfg env s (Bool.not_eq_true s.gameOver ▸ h)]
    exact Nat.le_add_right _ _

/-- No sequence of ticks ever decreases the score. -/
theorem steps_score_mono (cfg : Config) (envs : List Env) (s : GameState) :
    s.score ≤ (steps cfg envs s).score := by
  induction envs generalizing s with
  | nil => exact Nat.le_refl _
  | cons e es ih =>
    exact Nat.le_trans (updateGame_score_mono cfg e s) (ih (updateGame cfg e s))

/-! ## C3 — score algebra -/

/-- C3: across any sequence of ticks the score never decreases; a single
tick's score strictly changes only if some active player bullet overlaps
some active enemy in the lists entering the bullet–enemy pass; and on a
non-terminal tick the score grows by exactly the sum of `(kind + 1) × 10`
over the enemies killed during that pass (the enemies of the pass's
output that are no longer active — every enemy entered it active). -/
theorem C3_score_monotone_exact (cfg : Config) (env : Env) (s : GameState) :
    (∀ envs : List Env, s.score ≤ (steps cfg envs s).score) ∧
    s.score ≤ (updateGame cfg env s).score ∧
    ((updateGame cfg env s).score ≠ s.score →
      ∃ b ∈ (preCollision cfg env s).bullets, b.active = true ∧
        ∃ e ∈ (preCollision cfg env s).enemies, e.active = true ∧
          checkCollision b e.toGameObject = true) ∧
    (s.gameOver = false →
      (updateGame cfg env s).score
        = s.score + deadScore (bulletEnemyPhase (preCollision cfg env s)).enemies) := by
  refine ⟨fun envs => steps_score_mono cfg envs s,
    updateGame_score_mono cfg env s, ?_, ?_⟩
  · intro hne
    by_cases h : s.gameOver = true
    · exact absurd (congrArg GameState.score (updateGame_frozen cfg env s h)) hne
    · have h' : s.gameOver = false := Bool.not_eq_true s.gameOver ▸ h
      rw [updateGame_score cfg env s h'] at hne
      have hg : (bulletEnemyPass (preCollision cfg env s).bullets
          (preCollision cfg env s).enemies).2.2.2 ≠ 0 := by omega
      exact bulletEnemyPass_gain_collision _ _ hg
  · intro h'
    rw [updateGame_score cfg env s h']
    have hbe : (bulletEnemyPhase (preCollision cfg env s)).enemies
        = (bulletEnemyPass (preCollision cfg env s).bullets
            (preCollision cfg env s).enemies).2.1 := rfl
    rw [hbe, bulletEnemyPass_deadScore,
      deadScore_all_active _ (preCollision_enemies_active cfg env s)]
    omega

/-- Witness for C3 at a concrete non-terminal state. -/
theorem C3_score_monotone_exact_witness :
    (initialGameState 32).score ≤ (updateGame cfg0 env0 (initialGameState 32)).score ∧
    (updateGame cfg0 env0 (initialGameState 32)).score
      = (initialGameState 32).score
        + deadScore (bulletEnemyPhase (preCollision cfg0 env0 (initialGameState 32))).enemies :=
  ⟨(C3_score_monotone_exact cfg0 env0 (initialGameState 32)).2.1,
   (C3_score_monotone_exact cfg0 env0 (initialGameState 32)).2.2.2 rfl⟩

/-! ## C4 — one bullet scores at most once -/

/-- Identical zipped lists contain no newly-killed pair. -/
theorem zip_self_kill_count (l : List Enemy) :
    ((l.zip l).countP (fun p => p.1.active && !p.2.active)) = 0 := by
  induction l with
  | nil => rfl
  | cons e rest ih =>
    simp [List.zip_cons_cons, List.countP_cons, ih]

/-- C4: within one tick, a single bullet's scan of the enemy list kills at
most one enemy (at most one position of the enemy list flips from active
to inactive), and its total score contribution is either 0 or exactly
`(type + 1) × 10` for one active overlapping enemy of the list — in which
case the bullet comes out marked inactive; a bullet that is already
inactive leaves the scan with no effect at all (later pairs involving it
never score). -/
theorem C4_bullet_scores_once (b : Bullet) (es : List Enemy) :
    ((es.zip (scanEnemies b es).2.1).countP
        (fun p => p.1.active && !p.2.active)) ≤ 1 ∧
    ((scanEnemies b es).2.2.2 = 0 ∨
      ∃ e ∈ es, e.active = true ∧ checkCollision b e.toGameObject = true ∧
        (scanEnemies b es).2.2.2 = (e.type + 1) * 10 ∧
        (scanEnemies b es).1.active = false) ∧
    (b.active = false → scanEnemies b es = (b, es, [], 0)) := by
  have main : ((es.zip (scanEnemies b es).2.1).countP
        (fun p => p.1.active && !p.2.active)) ≤ 1 ∧
      ((scanEnemies b es).2.2.2 = 0 ∨
        ∃ e ∈ es, e.active = true ∧ checkCollision b e.toGameObject = true ∧
          (scanEnemies b es).2.2.2 = (e.type + 1) * 10 ∧
          (scanEnemies b es).1.active = false) := by
    induction es generalizing b with
    | nil => exact ⟨by simp [scanEnemies], Or.inl rfl⟩
    | cons e0 rest ih =>
      by_cases h : (b.active && e0.active && checkCollision b e0.toGameObject) = true
      · have h' := h
        simp only [Bool.and_eq_true] at h'
        have hrest : scanEnemies { b with active := false } rest
            = ({ b with active := false }, rest, [], 0) :=
          scanEnemies_inactive _ rest rfl
        constructor
        · simp only [scanEnemies, h, if_true, hrest]
          simp [List.zip_cons_cons, List.countP_cons, h'.1.2,
            zip_self_kill_count]
        · refine Or.inr ⟨e0, List.mem_cons_self e0 rest, h'.1.2, h'.2, ?_, ?_⟩
          · simp [scanEnemies, h, hrest]
          · simp [scanEnemies, h, hrest]
      · have hb : (scanEnemies b (e0 :: rest)).1 = (scanEnemies b rest).1 := by
          simp [scanEnemies, h]
        have hes : (scanEnemies b (e0 :: rest)).2.1
            = e0 :: (scanEnemies b rest).2.1 := by
          simp [scanEnemies, h]
        have hgain : (scanEnemies b (e0 :: rest)).2.2.2
            = (scanEnemies b rest).2.2.2 := by
          simp [scanEnemies, h]
        constructor
        · rw [hes]
          simp only [List.zip_cons_cons, List.countP_cons]
          have : (fun p : Enemy × Enemy => p.1.active && !p.2.active)
              (e0, e0) = false := by simp
          simp [this, (ih b).1]
        · rcases (ih b).2 with h0 | ⟨e, hmem, he, hcoll, hg, hba⟩
          · exact Or.inl (hgain ▸ h0)
          · exact Or.inr ⟨e, List.mem_cons_of_mem e0 hmem, he, hcoll,
              hgain ▸ hg, hb ▸ hba⟩
  exact ⟨main.1, main.2, fun hb => scanEnemies_inactive b es hb⟩

/-- An inactive bullet and a pair of enemies, for the C4 witness. -/
def bSpent : Bullet :=
  { x := 100, y := 100, width := 4, height := 12, speed := 8, active := false }

def esPair : List Enemy :=
  [{ x := 98, y := 95, width := 32, height := 32, speed := 2, active := true, type := 0 },
   { x := 99, y := 96, width := 32, height := 32, speed := 2, active := true, type := 1 }]

/-- Witness for C4: the inactive-bullet clause at a concrete scan. -/
theorem C4_bullet_scores_once_witness :
    scanEnemies bSpent esPair = (bSpent, esPair, [], 0) :=
  (C4_bullet_scores_once bSpent esPair).2.2 rfl

/-! ## The game-over passes: characterisations -/

/-- The enemy–player pass raises the hit flag iff some enemy of the list
is active and overlaps the player. -/
theorem enemyPlayerPass_flag (p : Player) (es : List Enemy) :
    (enemyPlayerPass p es).1
      = es.any (fun e => e.active && checkCollision e.toGameObject p) := by
  induction es with
  | nil => rfl
  | cons e rest ih =>
    by_cases h : (e.active && checkCollision e.toGameObject p) = true
    · simp [enemyPlayerPass, h]
    · simp [enemyPlayerPass, h, ih]

/-- The enemy–player pass appends one player-centered explosion per
active overlapping enemy, in list order. -/
theorem enemyPlayerPass_explosions (p : Player) (es : List Enemy) :
    (enemyPlayerPass p es).2
      = (es.filter (fun e => e.active && checkCollision e.toGameObject p)).map
          (fun _ => playerExplosion p) := by
  induction es with
  | nil => rfl
  | cons e rest ih =>
    by_cases h : (e.active && checkCollision e.toGameObject p) = true
    · simp [enemyPlayerPass, h, List.filter_cons, ih]
    · simp [enemyPlayerPass, h, List.filter_cons, ih]

/-- The enemy-bullet–player pass raises the hit flag iff some enemy
bullet of the list is active and overlaps the player. -/
theorem bulletPlayerPass_flag (p : Player) (ebs : List EnemyBullet) :
    (bulletPlayerPass p ebs).1
      = ebs.any (fun b => b.active && checkCollision b p) := by
  induction ebs with
  | nil => rfl
  | cons b rest ih =>
    by_cases h : (b.active && checkCollision b p) = true
    · simp [bulletPlayerPass, h]
    · simp [bulletPlayerPass, h, ih]

/-- The enemy-bullet–player pass appends one player-centered explosion
per active overlapping enemy bullet, in list order. -/
theorem bulletPlayerPass_explosions (p : Player) (ebs : List EnemyBullet) :
    (bulletPlayerPass p ebs).2
      = (ebs.filter (fun b => b.active && checkCollision b p)).map
          (fun _ => playerExplosion p) := by
  induction ebs with
  | nil => rfl
  | cons b rest ih =>
    by_cases h : (b.active && checkCollision b p) = true
    · simp [bulletPlayerPass, h, List.filter_cons, ih]
    · simp [bulletPlayerPass, h, List.filter_cons, ih]

/-- On a non-terminal tick, the step's final `gameOver` is the disjunction
of the two game-over passes run on the pre-pruning snapshot. -/
theorem updateGame_gameOver (cfg : Config) (env : Env) (s : GameState)
    (h : s.gameOver = false) :
    (updateGame cfg env s).gameOver
      = ((enemyPlayerPass (bulletEnemyPhase (preCollision cfg env s)).player
            (bulletEnemyPhase (preCollision cfg env s)).enemies).1
         || (bulletPlayerPass (bulletEnemyPhase (preCollision cfg env s)).player
            (bulletEnemyPhase (preCollision cfg env s)).enemyBullets).1) := by
  simp [updateGame, h]

/-- On a non-terminal tick, the step's final enemy list is the pruned
output of the bullet–enemy pass. -/
theorem updateGame_enemies (cfg : Config) (env : Env) (s : GameState)
    (h : s.gameOver = false) :
    (updateGame cfg env s).enemies
      = ((bulletEnemyPhase (preCollision cfg env s)).enemies).filter
          (fun e => e.active) := by
  simp [updateGame, h]

/-! ## C5 — a collision counts only between alive participants -/

/-- C5: in the enemy-vs-player and enemy-bullet-vs-player passes, the hit
flag is raised iff some participant pair has both alive flags true at the
moment of the check (the player's flag is the program invariant: the
source never clears it); consequently, on a non-terminal tick in which
every enemy and enemy bullet that overlaps the player has been
deactivated earlier in the tick — e.g. an enemy killed by a player bullet
in the bullet–enemy pass — the step does not set `gameOver`. -/
theorem C5_alive_gates_gameOver (p : Player) (es : List Enemy)
    (ebs : List EnemyBullet) (cfg : Config) (env : Env) (s : GameState)
    (hp : p.active = true) :
    ((enemyPlayerPass p es).1 = true ↔
      ∃ e ∈ es, e.active = true ∧ p.active = true ∧
        checkCollision e.toGameObject p = true) ∧
    ((bulletPlayerPass p ebs).1 = true ↔
      ∃ b ∈ ebs, b.active = true ∧ p.active = true ∧
        checkCollision b p = true) ∧
    (s.gameOver = false →
      (∀ e ∈ (bulletEnemyPhase (preCollision cfg env s)).enemies,
          checkCollision e.toGameObject (preCollision cfg env s).player = true →
          e.active = false) →
      (∀ b ∈ (preCollision cfg env s).enemyBullets,
          checkCollision b (preCollision cfg env s).player = true →
          b.active = false) →
      (updateGame cfg env s).gameOver = false) := by
  refine ⟨?_, ?_, ?_⟩
  · rw [enemyPlayerPass_flag, List.any_eq_true]
    constructor
    · rintro ⟨e, he, hcond⟩
      simp only [Bool.and_eq_true] at hcond
      exact ⟨e, he, hcond.1, hp, hcond.2⟩
    · rintro ⟨e, he, ha, -, hc⟩
      exact ⟨e, he, by simp [ha, hc]⟩
  · rw [bulletPlayerPass_flag, List.any_eq_true]
    constructor
    · rintro ⟨b, hb, hcond⟩
      simp only [Bool.and_eq_true] at hcond
      exact ⟨b, hb, hcond.1, hp, hcond.2⟩
    · rintro ⟨b, hb, ha, -, hc⟩
      exact ⟨b, hb, by simp [ha, hc]⟩
  · intro hgo hde hdb
    rw [updateGame_gameOver cfg env s hgo]
    have h1 : (enemyPlayerPass (bulletEnemyPhase (preCollision cfg env s)).player
        (bulletEnemyPhase (preCollision cfg env s)).enemies).1 = false := by
      rw [enemyPlayerPass_flag]
      rw [List.any_eq_false]
      intro e he
      simp only [Bool.and_eq_true, not_and]
      intro ha
      have := hde e he
      intro hc
      rw [this hc] at ha
      exact Bool.false_ne_true ha
    have h2 : (bulletPlayerPass (bulletEnemyPhase (preCollision cfg env s)).player
        (bulletEnemyPhase (preCollision cfg env s)).enemyBullets).1 = false := by
      rw [bulletPlayerPass_flag]
      rw [List.any_eq_false]
      intro b hb
      simp only [Bool.and_eq_true, not_and]
      intro ha
      have hb' : b ∈ (preCollision cfg env s).enemyBullets := hb
      have := hdb b hb'
      intro hc
      rw [this hc] at ha
      exact Bool.false_ne_true ha
    rw [h1, h2]
    rfl

/-- A state in which a player bullet kills, in the same tick, the one
enemy that overlaps the player: the dead enemy must not set game over. -/
def sC5 : GameState :=
  { initialGameState 32 with
      bullets := [{ x := 410, y := 510, width := 4, height := 12, speed := 8
                    active := true }]
      enemies := [{ x := 400, y := 498, width := 32, height := 32, speed := 2
                    active := true, type := 0 }] }

/-- Witness for C5: in `sC5` the enemy overlapping the player is
deactivated by the bullet pass first, and the tick ends with
`gameOver = false`. -/
theorem C5_alive_gates_gameOver_witness :
    (updateGame cfg0 env0 sC5).gameOver = false :=
  (C5_alive_gates_gameOver (initialGameState 32).player [] [] cfg0 env0 sC5
      rfl).2.2 rfl
    (by norm_num [bulletEnemyPhase, preCollision, enemyMovePhase, spawnPhase,
      enemyBulletMovePhase, bulletMovePhase, firePhase, playerPhase,
      movePlayer, clampPlayer, moveBullets, moveEnemyBullets, moveEnemies,
      scanEnemies, bulletEnemyPass, sC5, initialGameState, cfg0, env0,
      checkCollision, fireBullet, spawnEnemy, fireEnemyBullet,
      CANVAS_WIDTH, CANVAS_HEIGHT])
    (by norm_num [preCollision, enemyMovePhase, spawnPhase,
      enemyBulletMovePhase, bulletMovePhase, firePhase, playerPhase,
      movePlayer, clampPlayer, moveBullets, moveEnemyBullets, moveEnemies,
      sC5, initialGameState, cfg0, env0, checkCollision, fireBullet,
      spawnEnemy, fireEnemyBullet, CANVAS_WIDTH, CANVAS_HEIGHT])

/-! ## C9 — game-over collisions touch only `gameOver` and `explosions` -/

/-- C9: the game-over passes modify only the `gameOver` flag and the
explosion list — player, bullets, enemy bullets, enemies, timers and score
all pass through unchanged, and one explosion centered on the player is
appended per colliding active entity (several in one tick if several
collide).  In particular a colliding enemy keeps `active = true`; at step
level, an active enemy of the pre-pruning snapshot that overlaps the
player makes the tick end with `gameOver = true` while the enemy itself
survives the prune and remains in the World State. -/
theorem C9_gameOver_frame_effect (s : GameState) (cfg : Config) (env : Env) :
    (playerHitPhase s).player = s.player ∧
    (playerHitPhase s).bullets = s.bullets ∧
    (playerHitPhase s).enemyBullets = s.enemyBullets ∧
    (playerHitPhase s).enemies = s.enemies ∧
    (playerHitPhase s).lastEnemySpawn = s.lastEnemySpawn ∧
    (playerHitPhase s).lastBulletFire = s.lastBulletFire ∧
    (playerHitPhase s).score = s.score ∧
    (playerHitPhase s).explosions
      = s.explosions
        ++ (s.enemies.filter
            (fun e => e.active && checkCollision e.toGameObject s.player)).map
              (fun _ => playerExplosion s.player)
        ++ (s.enemyBullets.filter
            (fun b => b.active && checkCollision b s.player)).map
              (fun _ => playerExplosion s.player) ∧
    (s.gameOver = false →
      ∀ e ∈ (bulletEnemyPhase (preCollision cfg env s)).enemies,
        e.active = true →
        checkCollision e.toGameObject (preCollision cfg env s).player = true →
        (updateGame cfg env s).gameOver = true ∧
        e ∈ (updateGame cfg env s).enemies) := by
  refine ⟨rfl, rfl, rfl, rfl, rfl, rfl, rfl, ?_, ?_⟩
  · rw [playerHitPhase_explosions, enemyPlayerPass_explosions,
      bulletPlayerPass_explosions]
  · intro hgo e he ha hc
    constructor
    · rw [updateGame_gameOver cfg env s hgo]
      have hflag : (enemyPlayerPass
          (bulletEnemyPhase (preCollision cfg env s)).player
          (bulletEnemyPhase (preCollision cfg env s)).enemies).1 = true := by
        rw [enemyPlayerPass_flag, List.any_eq_true]
        exact ⟨e, he, by simp [ha, hc]⟩
      rw [hflag]
      rfl
    · rw [updateGame_enemies cfg env s hgo]
      exact List.mem_filter.mpr ⟨he, ha⟩

/-- A state whose single enemy ends the movement phase exactly on the
player, with no bullet to stop it. -/
def sC9 : GameState :=
  { initialGameState 32 with
      enemies := [{ x := 400, y := 498, width := 32, height := 32, speed := 2
                    active := true, type := 0 }] }

/-- The same enemy after the movement phase of that tick. -/
def eC9 : Enemy :=
  { x := 400, y := 500, width := 32, height := 32, speed := 2
    active := true, type := 0 }

/-- Witness for C9: the surviving colliding enemy sets `gameOver` and is
still in the world after the tick. -/
theorem C9_gameOver_frame_effect_witness :
    (updateGame cfg0 env0 sC9).gameOver = true ∧
    eC9 ∈ (updateGame cfg0 env0 sC9).enemies :=
  (C9_gameOver_frame_effect sC9 cfg0 env0).2.2.2.2.2.2.2.2 rfl eC9
    (by norm_num [bulletEnemyPhase, bulletEnemyPass, preCollision,
      enemyMovePhase, spawnPhase, enemyBulletMovePhase, bulletMovePhase,
      firePhase, playerPhase, movePlayer, clampPlayer, moveBullets,
      moveEnemyBullets, moveEnemies, sC9, eC9, initialGameState, cfg0, env0,
      checkCollision, fireBullet, spawnEnemy, fireEnemyBullet,
      CANVAS_WIDTH, CANVAS_HEIGHT])
    rfl
    (by norm_num [preCollision, enemyMovePhase, spawnPhase,
      enemyBulletMovePhase, bulletMovePhase, firePhase, playerPhase,
      movePlayer, clampPlayer, moveBullets, moveEnemyBullets, moveEnemies,
      sC9, eC9, initialGameState, cfg0, env0, checkCollision, fireBullet,
      spawnEnemy, fireEnemyBullet, CANVAS_WIDTH, CANVAS_HEIGHT])

/-! ## C10 — explosion frames at tick boundaries -/

/-- Every explosion surviving the ageing filter has frame in `[1, 9]`:
frames are bumped by one (so 0 becomes 1) and frames reaching 10 are
dropped. -/
theorem ageExplosions_frames (exs : List Explosion) :
    ∀ ex ∈ ageExplosions exs, 1 ≤ ex.frame ∧ ex.frame ≤ 9 := by
  intro ex hx
  unfold ageExplosions at hx
  obtain ⟨hmem, hlt⟩ := List.mem_filter.mp hx
  have hlt' : ex.frame < 10 := by simpa using hlt
  obtain ⟨ex0, -, heq⟩ := List.mem_map.mp hmem
  have h1 : ex.frame = ex0.frame + 1 := by rw [← heq]
  omega

/-- One tick preserves the frame invariant. -/
theorem updateGame_explosion_frames (cfg : Config) (env : Env)
    (s : GameState)
    (hinv : ∀ ex ∈ s.explosions, 1 ≤ ex.frame ∧ ex.frame ≤ 9) :
    ∀ ex ∈ (updateGame cfg env s).explosions,
      1 ≤ ex.frame ∧ ex.frame ≤ 9 := by
  by_cases h : s.gameOver = true
  · rw [updateGame_frozen cfg env s h]
    exact hinv
  · have h' : s.gameOver = false := Bool.not_eq_true s.gameOver ▸ h
    intro ex hx
    have hred : updateGame cfg env s
        = explosionPhase (prunePhase (playerHitPhase
            (bulletEnemyPhase (preCollision cfg env s)))) := by
      unfold updateGame
      rw [h']
      exact if_neg (by simp)
    rw [hred] at hx
    exact ageExplosions_frames _ ex hx

/-- C10: at every tick boundary reached from the initial world (whose
explosion list is empty), every explosion's frame count is between 1 and
9 inclusive — explosions spawned at frame 0 during a tick are aged to 1
before the tick ends, and any explosion reaching frame 10 is removed in
the same tick, so frames 0 and ≥ 10 are never observable across ticks. -/
theorem C10_explosion_frames_bounded (cfg : Config) (envs : List Env)
    (playerSize : ℚ) :
    ((steps cfg envs (initialGameState playerSize)).explosions.all
        (fun ex => decide (1 ≤ ex.frame) && decide (ex.frame ≤ 9))) = true := by
  have key : ∀ (l : List Env) (s : GameState),
      (∀ ex ∈ s.explosions, 1 ≤ ex.frame ∧ ex.frame ≤ 9) →
      ∀ ex ∈ (steps cfg l s).explosions, 1 ≤ ex.frame ∧ ex.frame ≤ 9 := by
    intro l
    induction l with
    | nil => intro s h; exact h
    | cons e es ih =>
      intro s h
      exact ih (updateGame cfg e s) (updateGame_explosion_frames cfg e s h)
  rw [List.all_eq_true]
  intro ex hx
  have hb := key envs (initialGameState playerSize)
    (by intro ex0 hx0; simp [initialGameState] at hx0) ex hx
  simp [hb.1, hb.2]
